import Mathlib

/-!
# VORTEX-BOT: shallow embedding of the session-and-reward engine

This file embeds the reward/session logic of `src/bot.py` (class `VortexBot`)
and proves the frozen claims about it.

Modelling conventions:
* Coin amounts are rationals (the source mixes integers with the 0.5 reaction
  reward).
* Python dicts keyed by user id become `Nat → Option α` maps; the sequentially
  keyed proposal dict (`proposal_id = len(active_proposals)`, never deleted
  from) becomes a `List Proposal` indexed by position.
* External randomness (`random.choice`, `random.random`, `random.randint`) and
  wall-clock reads (`time.time()`) are passed in as explicit parameters.
* The database collaborator (`self.db`) is modelled by two state fields:
  `balances` (get_balance / add_balance) and `daily_earnings`
  (get_daily_earnings, advisory read-only state owned by the collaborator).
* Outbound chat messages are not part of the modelled state.
-/

namespace Vortex

/-- Quiz difficulty tiers, the keys of `quiz_rewards` in the source. -/
inductive Difficulty where
  | easy | medium | hard
deriving DecidableEq, Repr

/-- `quiz_rewards` dict: easy 5, medium 10, hard 20 vortex_coins. -/
def quiz_rewards : Difficulty → ℚ
  | .easy => 5
  | .medium => 10
  | .hard => 20

/-- `farming_rewards['message']` = 1 vortex_coin per valid message. -/
def farming_message_reward : ℚ := 1

/-- `farming_rewards['reaction']` = 0.5 vortex_coins per reaction. -/
def farming_reaction_reward : ℚ := 1/2

/-- `farming_rewards['daily_cap']` = 50 vortex_coins per day. -/
def farming_daily_cap : ℚ := 50

/-- `mining_rewards['basic']` = 1 vortex_coin per minute. -/
def mining_basic : ℚ := 1

/-- `mining_rewards['rare']` = 5 vortex_coins (10 percent chance). -/
def mining_rare : ℚ := 5

/-- `mining_rewards['epic']` = 10 vortex_coins (5 percent chance). -/
def mining_epic : ℚ := 10

/-- `game_rewards['win']` = 10. -/
def game_win_reward : ℚ := 10

/-- `game_rewards['participate']` = 2. -/
def game_participate_reward : ℚ := 2

/-- A quiz question as returned by `db.get_quiz_questions`. -/
structure QuizQuestion where
  question : String
  answer : String
  difficulty : Difficulty
deriving DecidableEq, Repr

/-- One entry of `active_quizzes`: question, attempts so far, max attempts. -/
structure QuizSession where
  question : QuizQuestion
  attempts : Nat
  max_attempts : Nat
deriving DecidableEq, Repr

/-- One entry of `mining_sessions`: start time and fixed 300 s duration. -/
structure MiningSession where
  start_time : ℚ
  duration : Nat
deriving DecidableEq, Repr

/-- One entry of `active_games`: secret number, attempts, max attempts. -/
structure GameSession where
  number : Int
  attempts : Nat
  max_attempts : Nat
deriving DecidableEq, Repr

/-- One entry of `active_proposals`.  The `propose` command builds this dict
with keys text, creator, votes_for, votes_against, voters and end_time; it
never stores a `message_id` key, so that field is an `Option` that `propose`
leaves at `none` (Python `dict.get('message_id')` then returns `None`). -/
structure Proposal where
  text : String
  creator : Nat
  votes_for : ℚ
  votes_against : ℚ
  voters : List Nat
  end_time : ℚ
  message_id : Option Nat
deriving DecidableEq, Repr

/-- Python `str.lower()` restricted to the ASCII range, character by
character (quiz answers are compared case-insensitively). -/
def lower (s : String) : String := String.mk (s.data.map Char.toLower)

/-- Python `content.startswith('!')`: the command marker is the single
character at the start of the message. -/
def startsWithMark (s : String) : Bool :=
  match s.data with
  | c :: _ => c = '!'
  | [] => false

/-- Digit run to a number, `none` unless the characters are all digits. -/
def parseDigits (cs : List Char) : Option Nat :=
  if cs.isEmpty then none
  else if cs.all Char.isDigit then
    some (cs.foldl (fun n c => n * 10 + (c.toNat - 48)) 0)
  else none

/-- Python `int(content)` as used for guesses: an optional sign followed by
digits; anything else raises `ValueError`, modelled as `none`. -/
def pyInt (s : String) : Option Int :=
  match s.data with
  | '-' :: rest => (parseDigits rest).map (fun n => -(n : Int))
  | '+' :: rest => (parseDigits rest).map (fun n => (n : Int))
  | cs => (parseDigits cs).map (fun n => (n : Int))

/-- Point update of a keyed map (Python `d[k] = v` / `del d[k]`). -/
def upd {α : Type} (m : Nat → Option α) (k : Nat) (v : Option α) :
    Nat → Option α :=
  fun k2 => if k2 = k then v else m k2

/-- `db.add_balance(user, amt)`: add to one user's balance. -/
def addBal (b : Nat → ℚ) (k : Nat) (amt : ℚ) : Nat → ℚ :=
  fun k2 => if k2 = k then b k2 + amt else b k2

/-- The mutable state of `VortexBot` (plus the ledger collaborator). -/
structure BotState where
  balances : Nat → ℚ
  daily_earnings : Nat → ℚ
  active_quizzes : Nat → Option QuizSession
  farming_cooldowns : Nat → Option ℚ
  mining_sessions : Nat → Option MiningSession
  active_games : Nat → Option GameSession
  active_proposals : List Proposal
  airdrop_participants : Finset Nat

/-- Outcome of a command entry point, as surfaced to the transport layer. -/
inductive Outcome where
  | ok | alreadyActive | noQuestions | notEligible
deriving DecidableEq, Repr

/-- The `!quiz` command (bot.py lines 130-155): rejected when the author
already has an active quiz; rejected when the question pool for the requested
difficulty is empty; otherwise one question is chosen from the pool (the
random choice is the index `pick % questions.length`) and a session with
`attempts = 0`, `max_attempts = 3` is stored. -/
def quiz (s : BotState) (uid : Nat) (questions : List QuizQuestion)
    (pick : Nat) : Outcome × BotState :=
  if (s.active_quizzes uid).isSome then (Outcome.alreadyActive, s)
  else if questions.isEmpty then (Outcome.noQuestions, s)
  else
    let q := questions.getD (pick % questions.length)
      ⟨"", "", Difficulty.easy⟩
    let sess : QuizSession :=
      { question := q, attempts := 0, max_attempts := 3 }
    (Outcome.ok,
      { s with active_quizzes := upd s.active_quizzes uid (some sess) })

/-- Quiz-answer block of `on_message` (bot.py lines 163-178): with an active
session, a case-insensitive exact match credits the reward for the question's
difficulty and deletes the session; otherwise attempts are incremented and the
session is deleted once they reach `max_attempts`. -/
def handleQuizAnswer (s : BotState) (uid : Nat) (content : String) :
    BotState :=
  match s.active_quizzes uid with
  | none => s
  | some qz =>
    if lower content = lower qz.question.answer then
      { s with
        balances := addBal s.balances uid
          (quiz_rewards qz.question.difficulty),
        active_quizzes := upd s.active_quizzes uid none }
    else
      let attempts := qz.attempts + 1
      if qz.max_attempts ≤ attempts then
        { s with active_quizzes := upd s.active_quizzes uid none }
      else
        let sess : QuizSession := { qz with attempts := attempts }
        { s with active_quizzes := upd s.active_quizzes uid (some sess) }

/-- `_process_social_farming` (bot.py lines 204-229): returns unchanged when
daily earnings reached the cap; otherwise, for a message of length at least 10
not starting with the command marker, with the 60 s cooldown elapsed
(`t0 - last ≥ 60`, last defaulting to 0), credits the base message reward,
records the cooldown timestamp `t1`, and on a successful 10 percent roll also
credits a bonus of twice the base reward with no further checks.  `t0` and
`t1` are the two successive `time.time()` reads in the source. -/
def processSocialFarming (s : BotState) (uid : Nat) (content : String)
    (t0 t1 : ℚ) (roll : Bool) : BotState :=
  if farming_daily_cap ≤ s.daily_earnings uid then s
  else
    if 10 ≤ content.length ∧ startsWithMark content = false then
      let last := (s.farming_cooldowns uid).getD 0
      if 60 ≤ t0 - last then
        let reward := farming_message_reward
        let s1 :=
          { s with
            balances := addBal s.balances uid reward,
            farming_cooldowns := upd s.farming_cooldowns uid (some t1) }
        if roll then
          { s1 with balances := addBal s1.balances uid (reward * 2) }
        else s1
      else s
    else s

/-- Guessing-game block of `on_message` (bot.py lines 184-202): with an active
game and numeric content, attempts are incremented; a correct guess credits
the win reward and deletes the game; exhausting `max_attempts` credits the
participate reward and deletes the game; otherwise the game stays with the
incremented attempt count.  Non-numeric content is silently ignored. -/
def handleGuess (s : BotState) (uid : Nat) (content : String) : BotState :=
  match s.active_games uid with
  | none => s
  | some g =>
    match pyInt content with
    | none => s
    | some guess =>
      let attempts := g.attempts + 1
      if guess = g.number then
        { s with
          balances := addBal s.balances uid game_win_reward,
          active_games := upd s.active_games uid none }
      else if g.max_attempts ≤ attempts then
        { s with
          balances := addBal s.balances uid game_participate_reward,
          active_games := upd s.active_games uid none }
      else
        let sess : GameSession := { g with attempts := attempts }
        { s with active_games := upd s.active_games uid (some sess) }

/-- `on_message` (bot.py lines 157-202): bot authors are ignored; otherwise
the quiz-answer block, then `_process_social_farming`, then the guessing-game
block all run on the same message, in that order. -/
def on_message (s : BotState) (isBot : Bool) (uid : Nat) (content : String)
    (t0 t1 : ℚ) (roll : Bool) : BotState :=
  if isBot then s
  else
    handleGuess
      (processSocialFarming (handleQuizAnswer s uid content) uid content
        t0 t1 roll)
      uid content

/-- First `on_reaction_add` listener in the class body (bot.py lines
231-244): credit the fixed reaction reward when the daily cap is not yet
reached.  In Python the later definition of the same method name (lines
372-391) rebinds the class attribute, so this body is dead code; it is kept
here under a distinct name to compare with the claim. -/
def on_reaction_add_farming (s : BotState) (isBot : Bool) (uid : Nat) :
    BotState :=
  if isBot then s
  else if farming_daily_cap ≤ s.daily_earnings uid then s
  else { s with balances := addBal s.balances uid farming_reaction_reward }

/-- Loop body of the governance-vote block (bot.py lines 383-391): when the
reaction's message id equals the proposal's stored `message_id` and the user
has not yet voted, the user's current balance `w` is added to the matching
tally and the voter recorded; otherwise the proposal is untouched. -/
def voteUpdate (w : ℚ) (uid : Nat) (emoji : String) (msgId : Nat)
    (p : Proposal) : Proposal :=
  if p.message_id = some msgId then
    if uid ∈ p.voters then p
    else if emoji = "👍" then
      { p with votes_for := p.votes_for + w, voters := uid :: p.voters }
    else
      { p with votes_against := p.votes_against + w,
               voters := uid :: p.voters }
  else p

/-- Second (and, by Python name rebinding, the effective) `on_reaction_add`
listener (bot.py lines 372-391): a gift reaction from a non-bot user adds the
user to the global airdrop participant set; a thumbs reaction walks every
proposal applying `voteUpdate` with the voter's balance read at vote time. -/
def on_reaction_add (s : BotState) (isBot : Bool) (uid : Nat)
    (emoji : String) (msgId : Nat) : BotState :=
  if isBot then s
  else
    let s1 :=
      if emoji = "🎁" then
        { s with airdrop_participants := insert uid s.airdrop_participants }
      else s
    if emoji = "👍" ∨ emoji = "👎" then
      { s1 with
        active_proposals := s1.active_proposals.map
          (voteUpdate (s1.balances uid) uid emoji msgId) }
    else s1

/-- The `!mine` command (bot.py lines 258-276): rejected when a mining
session already exists for the author; otherwise a session with the current
time and a 300 s duration is stored. -/
def mine (s : BotState) (uid : Nat) (t : ℚ) : Outcome × BotState :=
  if (s.mining_sessions uid).isSome then (Outcome.alreadyActive, s)
  else
    let sess : MiningSession := { start_time := t, duration := 300 }
    (Outcome.ok,
      { s with mining_sessions := upd s.mining_sessions uid (some sess) })

/-- Resumption of `!mine` after the 300 s sleep (bot.py lines 281-301): if
the session still exists, the base reward `basic * 5` plus the rare bonus (on
a successful 10 percent roll) plus the epic bonus (on an independent
successful 5 percent roll) is credited once and the session deleted;
otherwise nothing happens. -/
def mineTimerFire (s : BotState) (uid : Nat) (rare epic : Bool) : BotState :=
  if (s.mining_sessions uid).isSome then
    let base_reward := mining_basic * 5
    let bonus := (if rare then mining_rare else 0) +
      (if epic then mining_epic else 0)
    { s with
      balances := addBal s.balances uid (base_reward + bonus),
      mining_sessions := upd s.mining_sessions uid none }
  else s

/-- The `!play` command (bot.py lines 304-318): rejected when a game is
already active for the author; otherwise a game session with secret `n`
(drawn by `random.randint(1, 100)` in the source), `attempts = 0` and
`max_attempts = 5` is stored. -/
def play (s : BotState) (uid : Nat) (n : Int) : Outcome × BotState :=
  if (s.active_games uid).isSome then (Outcome.alreadyActive, s)
  else
    let sess : GameSession := { number := n, attempts := 0, max_attempts := 5 }
    (Outcome.ok,
      { s with active_games := upd s.active_games uid (some sess) })

/-- The `!propose` command (bot.py lines 321-346): rejected when the
creator's balance is below 100; otherwise a proposal with zero tallies, no
voters and `end_time = t + 86400` is appended under the next sequential id
(`len(active_proposals)`).  No `message_id` key is ever stored. -/
def propose (s : BotState) (uid : Nat) (text : String) (t : ℚ) :
    Outcome × BotState :=
  if s.balances uid < 100 then (Outcome.notEligible, s)
  else
    let p : Proposal :=
      { text := text, creator := uid, votes_for := 0, votes_against := 0,
        voters := [], end_time := t + 86400, message_id := none }
    (Outcome.ok, { s with active_proposals := s.active_proposals ++ [p] })

/-- Opening half of the `!airdrop` command (bot.py lines 351-361): the
process-global participant set is cleared before the announcement. -/
def airdropOpen (s : BotState) : BotState :=
  { s with airdrop_participants := ∅ }

/-- Closing half of the `!airdrop` command, after the sleep (bot.py lines
363-370): with a non-empty participant set, each participant is credited
`amount // card` once (Python floor division); with an empty set nothing
happens. -/
def airdropSettle (s : BotState) (amount : Int) : BotState :=
  if s.airdrop_participants.Nonempty then
    let coins_per_user : Int :=
      Int.fdiv amount s.airdrop_participants.card
    let newBal : Nat → ℚ := fun k =>
      if k ∈ s.airdrop_participants then s.balances k + (coins_per_user : ℚ)
      else s.balances k
    { s with balances := newBal }
  else s

/-- Every state-mutating entry point of the source, as one event type. -/
inductive Event where
  | msg (isBot : Bool) (uid : Nat) (content : String) (t0 t1 : ℚ)
      (roll : Bool)
  | reaction (isBot : Bool) (uid : Nat) (emoji : String) (msgId : Nat)
  | quizStart (uid : Nat) (questions : List QuizQuestion) (pick : Nat)
  | mineStart (uid : Nat) (t : ℚ)
  | mineTimer (uid : Nat) (rare epic : Bool)
  | playStart (uid : Nat) (n : Int)
  | proposeCmd (uid : Nat) (text : String) (t : ℚ)
  | airdropStart
  | airdropEnd (amount : Int)

/-- Dispatch one inbound event to the matching handler. -/
def step (s : BotState) : Event → BotState
  | .msg b uid c t0 t1 r => on_message s b uid c t0 t1 r
  | .reaction b uid e m => on_reaction_add s b uid e m
  | .quizStart uid qs p => (quiz s uid qs p).2
  | .mineStart uid t => (mine s uid t).2
  | .mineTimer uid r e => mineTimerFire s uid r e
  | .playStart uid n => (play s uid n).2
  | .proposeCmd uid tx t => (propose s uid tx t).2
  | .airdropStart => airdropOpen s
  | .airdropEnd a => airdropSettle s a

/-! ## Concrete states used by witnesses and counterexamples -/

/-- An empty state: zero balances, zero daily earnings, no sessions. -/
def baseState : BotState :=
  { balances := fun _ => 0, daily_earnings := fun _ => 0,
    active_quizzes := fun _ => none, farming_cooldowns := fun _ => none,
    mining_sessions := fun _ => none, active_games := fun _ => none,
    active_proposals := [], airdrop_participants := ∅ }

/-- A sample quiz question. -/
def qq1 : QuizQuestion :=
  { question := "2+2?", answer := "4", difficulty := Difficulty.easy }

/-- A sample quiz session on `qq1`. -/
def qSess1 : QuizSession :=
  { question := qq1, attempts := 0, max_attempts := 3 }

/-- A sample mining session. -/
def mSess1 : MiningSession := { start_time := 0, duration := 300 }

/-- A sample guessing game with secret 42. -/
def gSess1 : GameSession := { number := 42, attempts := 0, max_attempts := 5 }

/-- A state where user 7 has an active quiz, mining session and game. -/
def busyState : BotState :=
  { baseState with
    active_quizzes := upd baseState.active_quizzes 7 (some qSess1),
    mining_sessions := upd baseState.mining_sessions 7 (some mSess1),
    active_games := upd baseState.active_games 7 (some gSess1) }

/-- A state with three airdrop participants. -/
def airdropState : BotState :=
  { baseState with airdrop_participants := {1, 2, 3} }

/-- A quiz question whose answer is numeric and at least 10 characters. -/
def qq2 : QuizQuestion :=
  { question := "big number?", answer := "12345678901",
    difficulty := Difficulty.easy }

/-- A quiz session on `qq2`. -/
def qSess2 : QuizSession :=
  { question := qq2, attempts := 0, max_attempts := 3 }

/-- A state where one message can hit quiz, farming and game at once:
user 7 has an active quiz on `qq2` and an active guessing game. -/
def tripleState : BotState :=
  { baseState with
    active_quizzes := upd baseState.active_quizzes 7 (some qSess2),
    active_games := upd baseState.active_games 7 (some gSess1) }

/-- Balances for the governance scenario: creator 7 holds 500 coins,
voter 9 holds 50 coins. -/
def govState : BotState :=
  { baseState with
    balances := fun u => if u = 7 then 500 else if u = 9 then 50 else 0 }

/-- `govState` after user 7 creates a proposal at time 0. -/
def govProposed : BotState :=
  (propose govState 7 "Fund the tooling budget" 0).2

/-- The proposal record that `propose` appends in `govProposed`. -/
def prop0 : Proposal :=
  { text := "Fund the tooling budget", creator := 7, votes_for := 0,
    votes_against := 0, voters := [], end_time := 0 + 86400,
    message_id := none }

/-- `govProposed` after voter 9 reacts with a thumbs-up on the proposal
announcement message (id 1234). -/
def govAfterVote : BotState :=
  on_reaction_add govProposed false 9 "👍" 1234

/-! ## Claims -/

/-- Claim C1: for every owner and every activity kind (Quiz, Mining,
GuessingGame), a start request while a session already exists for that
(owner, kind) is rejected with an AlreadyActive outcome and leaves the whole
state — in particular the existing session's question, attempts, start time
and secret — unchanged; sessions live in maps keyed by (owner, kind), so at
most one session per (owner, kind) exists at any time. -/
theorem c1_start_rejected_when_active (s : BotState) (uid : Nat)
    (questions : List QuizQuestion) (pick : Nat) (t : ℚ) (n : Int) :
    ((s.active_quizzes uid).isSome →
      quiz s uid questions pick = (Outcome.alreadyActive, s)) ∧
    ((s.mining_sessions uid).isSome →
      mine s uid t = (Outcome.alreadyActive, s)) ∧
    ((s.active_games uid).isSome →
      play s uid n = (Outcome.alreadyActive, s)) := by
  refine ⟨fun h => ?_, fun h => ?_, fun h => ?_⟩ <;>
    simp [quiz, mine, play, h]

/-- Claim C1, witness: user 7 of `busyState` has all three session kinds
active, and each start request is rejected without changing the state. -/
theorem c1_start_rejected_when_active_witness :
    quiz busyState 7 [qq1] 0 = (Outcome.alreadyActive, busyState) ∧
    mine busyState 7 1000 = (Outcome.alreadyActive, busyState) ∧
    play busyState 7 55 = (Outcome.alreadyActive, busyState) :=
  ⟨(c1_start_rejected_when_active busyState 7 [qq1] 0 1000 55).1 rfl,
   (c1_start_rejected_when_active busyState 7 [qq1] 0 1000 55).2.1 rfl,
   (c1_start_rejected_when_active busyState 7 [qq1] 0 1000 55).2.2 rfl⟩

/-- Claim C4: at airdrop settlement with pool `amount` and a non-empty
participant set of size n, each participant is credited exactly
`amount // n` (Python floor division, `Int.fdiv`) once, everyone else's
balance is unchanged (so the remainder is not distributed), and the total
credited, `n * (amount // n)`, is at most the pool; with an empty participant
set the state is unchanged. -/
theorem c4_airdrop_distribution (s : BotState) (amount : Int) :
    (s.airdrop_participants.Nonempty →
      (∀ u ∈ s.airdrop_participants,
        (airdropSettle s amount).balances u =
          s.balances u +
            ((Int.fdiv amount s.airdrop_participants.card : ℤ) : ℚ)) ∧
      (∀ u, u ∉ s.airdrop_participants →
        (airdropSettle s amount).balances u = s.balances u) ∧
      (s.airdrop_participants.card : ℤ) *
          Int.fdiv amount s.airdrop_participants.card ≤ amount) ∧
    (s.airdrop_participants = ∅ → airdropSettle s amount = s) := by
  constructor
  · intro hne
    refine ⟨fun u hu => ?_, fun u hu => ?_, ?_⟩
    · simp [airdropSettle, hne, hu]
    · simp [airdropSettle, hne, hu]
    · have hcard : (0 : ℤ) < (s.airdrop_participants.card : ℤ) := by
        exact_mod_cast Finset.card_pos.mpr hne
      have hsplit := Int.fdiv_add_fmod amount
        (s.airdrop_participants.card : ℤ)
      have hmod := Int.fmod_nonneg' amount hcard
      linarith
  · intro he
    simp [airdropSettle, he]

/-- Claim C4, witness: pool 100 with participants 1, 2 and 3 credits each of
them exactly 33 while user 5 is untouched, and the total 3 * 33 = 99 is at
most 100; with no participants the settlement changes nothing. -/
theorem c4_airdrop_distribution_witness :
    (airdropSettle airdropState 100).balances 1 =
      airdropState.balances 1 + 33 ∧
    (airdropSettle airdropState 100).balances 5 = airdropState.balances 5 ∧
    (airdropState.airdrop_participants.card : ℤ) * 33 ≤ 100 ∧
    airdropSettle baseState 100 = baseState := by
  have h := c4_airdrop_distribution airdropState 100
  have hne : airdropState.airdrop_participants.Nonempty := ⟨1, by decide⟩
  have hcard : airdropState.airdrop_participants.card = 3 := by decide
  have hfd : Int.fdiv 100 (airdropState.airdrop_participants.card : ℤ) = 33 := by
    rw [hcard]; decide
  refine ⟨?_, ?_, ?_, ?_⟩
  · have := (h.1 hne).1 1 (by decide)
    rw [this, hfd]; norm_num
  · exact (h.1 hne).2.1 5 (by decide)
  · have := (h.1 hne).2.2
    rw [hfd] at this; exact this
  · exact (c4_airdrop_distribution baseState 100).2 rfl

/-- Claim C5: when the mining timer fires with the session still present,
the credited reward is the base `basic * 5` plus 5 for a successful rare
roll only, plus 10 for a successful epic roll only, plus 15 when both rolls
succeed, plus 0 when neither does — hence always at least `basic * 5`; the
session is removed, so a second timer fire is a no-op (the total is credited
once); when the session is already gone the state is unchanged. -/
theorem c5_mining_settlement (s : BotState) (uid : Nat) (rare epic : Bool) :
    ((s.mining_sessions uid).isSome →
      (mineTimerFire s uid rare epic).balances uid =
        s.balances uid + (mining_basic * 5 +
          ((if rare then mining_rare else 0) +
            (if epic then mining_epic else 0))) ∧
      s.balances uid + mining_basic * 5 ≤
        (mineTimerFire s uid rare epic).balances uid ∧
      (rare = true → epic = false →
        (mineTimerFire s uid rare epic).balances uid =
          s.balances uid + (mining_basic * 5 + 5)) ∧
      (rare = false → epic = true →
        (mineTimerFire s uid rare epic).balances uid =
          s.balances uid + (mining_basic * 5 + 10)) ∧
      (rare = true → epic = true →
        (mineTimerFire s uid rare epic).balances uid =
          s.balances uid + (mining_basic * 5 + 15)) ∧
      (rare = false → epic = false →
        (mineTimerFire s uid rare epic).balances uid =
          s.balances uid + mining_basic * 5) ∧
      (mineTimerFire s uid rare epic).mining_sessions uid = none ∧
      mineTimerFire (mineTimerFire s uid rare epic) uid rare epic =
        mineTimerFire s uid rare epic) ∧
    (s.mining_sessions uid = none → mineTimerFire s uid rare epic = s) := by
  constructor
  · intro h
    cases rare <;> cases epic <;>
      norm_num [mineTimerFire, h, upd, addBal, mining_basic, mining_rare,
        mining_epic]
  · intro h
    simp [mineTimerFire, h]

/-- Claim C5, witness: for user 7 of `busyState` (mining session active),
a timer fire with a successful rare roll and a failed epic roll credits
exactly `basic * 5 + 5` and removes the session; at `baseState` (no session)
the timer fire changes nothing. -/
theorem c5_mining_settlement_witness :
    (mineTimerFire busyState 7 true false).balances 7 =
      busyState.balances 7 + (mining_basic * 5 + 5) ∧
    (mineTimerFire busyState 7 true false).mining_sessions 7 = none ∧
    mineTimerFire baseState 7 true false = baseState := by
  have h := (c5_mining_settlement busyState 7 true false).1 rfl
  exact ⟨h.2.2.1 rfl rfl, h.2.2.2.2.2.2.1,
    (c5_mining_settlement baseState 7 true false).2 rfl⟩

/-- Claim C6: the farming message reward of 1 is credited exactly when the
daily earnings are below the cap, the message is at least 10 characters, it
does not start with the command marker, and at least 60 seconds passed since
the last farming reward; on crediting, the cooldown timestamp is recorded
and, when the 10 percent roll succeeds, an extra bonus of twice the base
reward is credited with no further cooldown or cap check.  When any of the
four conditions fails — in particular for any message shorter than 10
characters — the state is unchanged. -/
theorem c6_farming_message (s : BotState) (uid : Nat) (content : String)
    (t0 t1 : ℚ) (roll : Bool) :
    (s.daily_earnings uid < farming_daily_cap →
     10 ≤ content.length →
     startsWithMark content = false →
     60 ≤ t0 - (s.farming_cooldowns uid).getD 0 →
      (processSocialFarming s uid content t0 t1 roll).balances uid =
        s.balances uid + farming_message_reward +
          (if roll then farming_message_reward * 2 else 0) ∧
      (processSocialFarming s uid content t0 t1 roll).farming_cooldowns uid =
        some t1) ∧
    (¬ (s.daily_earnings uid < farming_daily_cap ∧
        10 ≤ content.length ∧
        startsWithMark content = false ∧
        60 ≤ t0 - (s.farming_cooldowns uid).getD 0) →
      processSocialFarming s uid content t0 t1 roll = s) := by
  constructor
  · intro h1 h2 h3 h4
    have h1' : ¬ farming_daily_cap ≤ s.daily_earnings uid := not_le.mpr h1
    cases roll <;>
      simp [processSocialFarming, h1', h2, h3, h4, upd, addBal,
        add_assoc, add_comm, add_left_comm]
  · intro hnot
    by_cases h1 : farming_daily_cap ≤ s.daily_earnings uid
    · simp [processSocialFarming, h1]
    · by_cases h2 : 10 ≤ content.length ∧ startsWithMark content = false
      · by_cases h3 : 60 ≤ t0 - (s.farming_cooldowns uid).getD 0
        · exact absurd ⟨not_le.mp h1, h2.1, h2.2, h3⟩ hnot
        · simp [processSocialFarming, h1, h2, h3]
      · simp [processSocialFarming, h1, h2]

/-- Claim C6, witness: at `baseState` (daily earnings 0, no cooldown
recorded), a 15-character ordinary message from user 7 at time 100 with a
successful bonus roll credits 1 + 2 coins and records cooldown time 101. -/
theorem c6_farming_message_witness :
    (processSocialFarming baseState 7 "hello world msg" 100 101
        true).balances 7 =
      baseState.balances 7 + farming_message_reward +
        farming_message_reward * 2 ∧
    (processSocialFarming baseState 7 "hello world msg" 100 101
        true).farming_cooldowns 7 = some 101 := by
  have h := (c6_farming_message baseState 7 "hello world msg" 100 101 true).1
    (by norm_num [baseState, farming_daily_cap])
    (by decide) (by decide)
    (by norm_num [baseState])
  simpa using h

/-- Claim C7: with an active quiz session, a case-insensitive exact match of
the message against the question's answer credits the reward of the
question's difficulty tier and removes the session, after which re-answering
is a no-op (the reward is credited exactly once, on whichever attempt `k ≤ 3`
matched); a non-matching answer credits nothing and increments attempts,
removing the session when the incremented count reaches the maximum of 3. -/
theorem c7_quiz_answer (s : BotState) (uid : Nat) (content : String)
    (qz : QuizSession) (h : s.active_quizzes uid = some qz)
    (hmax : qz.max_attempts = 3) :
    (lower content = lower qz.question.answer →
      (handleQuizAnswer s uid content).balances uid =
        s.balances uid + quiz_rewards qz.question.difficulty ∧
      (handleQuizAnswer s uid content).active_quizzes uid = none ∧
      handleQuizAnswer (handleQuizAnswer s uid content) uid content =
        handleQuizAnswer s uid content) ∧
    (lower content ≠ lower qz.question.answer →
      (handleQuizAnswer s uid content).balances uid = s.balances uid ∧
      (3 ≤ qz.attempts + 1 →
        (handleQuizAnswer s uid content).active_quizzes uid = none) ∧
      (qz.attempts + 1 < 3 →
        (handleQuizAnswer s uid content).active_quizzes uid =
          some { qz with attempts := qz.attempts + 1 })) := by
  constructor
  · intro hm
    refine ⟨?_, ?_, ?_⟩ <;> simp [handleQuizAnswer, h, hm, upd, addBal]
  · intro hm
    by_cases hc : qz.attempts + 1 < 3
    · have hc2 : ¬ (3 ≤ qz.attempts + 1) := by omega
      have hc3 : ¬ (qz.max_attempts ≤ qz.attempts + 1) := by omega
      refine ⟨?_, fun hx => absurd hx hc2, fun _ => ?_⟩ <;>
        simp [handleQuizAnswer, h, hm, hc3, upd]
    · have hc2 : qz.max_attempts ≤ qz.attempts + 1 := by omega
      refine ⟨?_, fun _ => ?_, fun hx => absurd hx hc⟩ <;>
        simp [handleQuizAnswer, h, hm, hc2, upd]

/-- Claim C7, witness: user 7 of `busyState` answers the active quiz
(question `2+2?`, answer `4`, easy tier) with `4` on the first attempt: the
easy-tier reward is credited and the session removed. -/
theorem c7_quiz_answer_witness :
    (handleQuizAnswer busyState 7 "4").balances 7 =
      busyState.balances 7 + quiz_rewards Difficulty.easy ∧
    (handleQuizAnswer busyState 7 "4").active_quizzes 7 = none := by
  have h := (c7_quiz_answer busyState 7 "4" qSess1 rfl rfl).1 rfl
  exact ⟨h.1, h.2.1⟩

/-- Claim C2 fails on the code: `propose` stores the proposal without any
`message_id`, so the vote handler's test `reaction.message.id ==
proposal.get('message_id')` compares an integer against `None` and never
matches; a thumbs-up from fresh voter 9 (balance 50) on the announcement
message therefore leaves `votes_for` at 0 and the voter set empty, where the
claim requires the tally to grow by the voter's balance. -/
theorem c2_vote_never_tallied :
    (propose govState 7 "Fund the tooling budget" 0).1 = Outcome.ok ∧
    govProposed.active_proposals.map Proposal.message_id = [none] ∧
    govAfterVote.balances 9 = 50 ∧
    govAfterVote.active_proposals.map Proposal.votes_for = [0] ∧
    govAfterVote.active_proposals.map Proposal.votes_against = [0] ∧
    govAfterVote.active_proposals.map Proposal.voters = [[]] := by
  refine ⟨?_, ?_, ?_, ?_, ?_, ?_⟩ <;> rfl

/-- Claim C3 fails on the code: the class body binds the method name
`on_reaction_add` twice (bot.py lines 231 and 372), so only the second
definition — airdrop participation and governance voting — is the effective
reaction listener.  For a plain reaction from non-bot user 7 whose daily
earnings (0) are below the cap, the effective listener leaves the state
completely unchanged, while the shadowed first listener body (kept as
`on_reaction_add_farming`) would have credited the 0.5 reaction reward the
claim describes. -/
theorem c3_reaction_reward_never_credited :
    baseState.daily_earnings 7 < farming_daily_cap ∧
    on_reaction_add baseState false 7 "😀" 1 = baseState ∧
    (on_reaction_add baseState false 7 "😀" 1).balances 7 =
      baseState.balances 7 ∧
    (on_reaction_add_farming baseState false 7).balances 7 =
      baseState.balances 7 + farming_reaction_reward := by
  refine ⟨?_, rfl, rfl, ?_⟩
  · norm_num [baseState, farming_daily_cap]
  · norm_num [on_reaction_add_farming, baseState, farming_daily_cap,
      farming_reaction_reward, addBal]

/-- Claim C9: `on_message` runs the quiz-answer handler, then the
social-farming handler, then the guessing-game handler on the same non-bot
message, in that fixed order; concretely, in `tripleState` the single message
`12345678901` settles the easy quiz reward, earns the farming message reward
and is counted as a guessing-game attempt in one dispatch. -/
theorem c9_dispatch_order :
    (∀ (s : BotState) (uid : Nat) (content : String) (t0 t1 : ℚ)
        (roll : Bool),
      on_message s false uid content t0 t1 roll =
        handleGuess
          (processSocialFarming (handleQuizAnswer s uid content) uid content
            t0 t1 roll)
          uid content) ∧
    (on_message tripleState false 7 "12345678901" 100 101 false).balances 7 =
      tripleState.balances 7 + quiz_rewards Difficulty.easy +
        farming_message_reward ∧
    (on_message tripleState false 7 "12345678901" 100 101
        false).active_quizzes 7 = none ∧
    ((on_message tripleState false 7 "12345678901" 100 101
        false).active_games 7).map GameSession.attempts = some 1 := by
  have hl : 10 ≤ "12345678901".length := by decide
  have hc : ¬ ('1' = '!') := by decide
  have hpy : pyInt "12345678901" = some 12345678901 := rfl
  refine ⟨fun s uid content t0 t1 roll => rfl, ?_, ?_, ?_⟩ <;>
    norm_num [on_message, handleQuizAnswer, processSocialFarming, handleGuess,
      tripleState, baseState, qSess2, qq2, gSess1, upd, addBal, quiz_rewards,
      farming_message_reward, farming_daily_cap, startsWithMark,
      game_win_reward, game_participate_reward, hl, hc, hpy]

/-- Claim C10 fails on the code in its final consequence: `!airdrop` clears
the global participant set as its first action, so a user who reacted with
the gift emoji before the new airdrop opened (here user 42, reacting while no
window was open) is dropped at open and is not credited at settlement —
the opposite of being counted as a participant of the new airdrop. -/
theorem c10_pre_open_reactors_not_counted :
    42 ∉ (airdropOpen (on_reaction_add baseState false 42 "🎁"
      1)).airdrop_participants ∧
    (airdropSettle (airdropOpen (on_reaction_add baseState false 42 "🎁" 1))
        100).balances 42 = baseState.balances 42 := by
  constructor
  · simp [airdropOpen]
  · rfl

/-- Claim C10 as amended: the airdrop participant set is one process-global
set, a gift reaction from any non-bot user inserts that user at any time
(no check that a window is open), and starting a new airdrop clears the
entire set — so users who reacted after the previous clear but before the
new airdrop opened are NOT counted as participants of the new airdrop. -/
theorem c10_amended_global_participant_set (s : BotState) (uid : Nat)
    (m : Nat) :
    (on_reaction_add s false uid "🎁" m).airdrop_participants =
      insert uid s.airdrop_participants ∧
    (airdropOpen s).airdrop_participants = ∅ ∧
    (airdropOpen (on_reaction_add s false uid "🎁" m)).airdrop_participants =
      ∅ :=
  ⟨rfl, rfl, rfl⟩

/-- Helper: the quiz-answer block never touches the proposal table. -/
theorem handleQuizAnswer_proposals (s : BotState) (uid : Nat)
    (content : String) :
    (handleQuizAnswer s uid content).active_proposals =
      s.active_proposals := by
  rcases h : s.active_quizzes uid with _ | qz
  · simp [handleQuizAnswer, h]
  · simp only [handleQuizAnswer, h]
    split_ifs <;> rfl

/-- Helper: the social-farming block never touches the proposal table. -/
theorem processSocialFarming_proposals (s : BotState) (uid : Nat)
    (content : String) (t0 t1 : ℚ) (roll : Bool) :
    (processSocialFarming s uid content t0 t1 roll).active_proposals =
      s.active_proposals := by
  by_cases h1 : farming_daily_cap ≤ s.daily_earnings uid
  · simp [processSocialFarming, h1]
  · by_cases h2 : 10 ≤ content.length ∧ startsWithMark content = false
    · by_cases h3 : 60 ≤ t0 - (s.farming_cooldowns uid).getD 0
      · cases roll <;> simp [processSocialFarming, h1, h2, h3]
      · simp [processSocialFarming, h1, h2, h3]
    · simp [processSocialFarming, h1, h2]

/-- Helper: the guessing-game block never touches the proposal table. -/
theorem handleGuess_proposals (s : BotState) (uid : Nat) (content : String) :
    (handleGuess s uid content).active_proposals = s.active_proposals := by
  rcases h : s.active_games uid with _ | g
  · simp [handleGuess, h]
  · rcases hp : pyInt content with _ | n
    · simp [handleGuess, h, hp]
    · simp only [handleGuess, h, hp]
      split_ifs <;> rfl

/-- Helper: the message pipeline never touches the proposal table. -/
theorem on_message_proposals (s : BotState) (b : Bool) (uid : Nat)
    (content : String) (t0 t1 : ℚ) (roll : Bool) :
    (on_message s b uid content t0 t1 roll).active_proposals =
      s.active_proposals := by
  cases b
  · simp [on_message, handleGuess_proposals, processSocialFarming_proposals,
      handleQuizAnswer_proposals]
  · rfl

/-- Claim C8 fails on the code: no code path ever consults a proposal's
`end_time`, closes a window, or reports a tally — under every event of the
system, every existing proposal survives at its index with its `end_time`,
text and creator intact, so a Proposal window is never settled and never
becomes terminal (and, the vote handler checking no deadline, would keep
accepting tally mutations at any time were vote matching not itself broken). -/
theorem c8_proposals_never_settled (s : BotState) (e : Event) (i : Nat)
    (p : Proposal) (h : s.active_proposals[i]? = some p) :
    ∃ p', (step s e).active_proposals[i]? = some p' ∧
      p'.end_time = p.end_time ∧ p'.text = p.text ∧
      p'.creator = p.creator := by
  cases e with
  | msg b uid content t0 t1 roll =>
    refine ⟨p, ?_, rfl, rfl, rfl⟩
    simp only [step]
    rw [on_message_proposals]
    exact h
  | reaction b uid emoji msgId =>
    cases b with
    | true =>
      refine ⟨p, ?_, rfl, rfl, rfl⟩
      simp only [step, on_reaction_add, if_pos rfl]
      exact h
    | false =>
      by_cases hv : emoji = "👍" ∨ emoji = "👎"
      · have hg : ¬ emoji = "🎁" := by
          rcases hv with h1 | h1 <;> subst h1 <;> decide
        refine ⟨voteUpdate (s.balances uid) uid emoji msgId p, ?_, ?_, ?_, ?_⟩
        · simp only [step, on_reaction_add]
          simp [hg, hv, List.getElem?_map, h]
        · unfold voteUpdate; split_ifs <;> rfl
        · unfold voteUpdate; split_ifs <;> rfl
        · unfold voteUpdate; split_ifs <;> rfl
      · refine ⟨p, ?_, rfl, rfl, rfl⟩
        by_cases hg : emoji = "🎁"
        · simp only [step, on_reaction_add]
          simp [hg, hv]
          exact h
        · simp only [step, on_reaction_add]
          simp [hg, hv]
          exact h
  | quizStart uid qs pick =>
    refine ⟨p, ?_, rfl, rfl, rfl⟩
    simp only [step, quiz]
    split_ifs <;> simp [h]
  | mineStart uid t =>
    refine ⟨p, ?_, rfl, rfl, rfl⟩
    simp only [step, mine]
    split_ifs <;> simp [h]
  | mineTimer uid rare epic =>
    refine ⟨p, ?_, rfl, rfl, rfl⟩
    simp only [step, mineTimerFire]
    split_ifs <;> simp [h]
  | playStart uid n =>
    refine ⟨p, ?_, rfl, rfl, rfl⟩
    simp only [step, play]
    split_ifs <;> simp [h]
  | proposeCmd uid text t =>
    refine ⟨p, ?_, rfl, rfl, rfl⟩
    simp only [step, propose]
    split_ifs
    · simp [h]
    · have hlt : i < s.active_proposals.length :=
        (List.getElem?_eq_some.mp h).1
      simp only []
      rw [List.getElem?_append, if_pos hlt]
      exact h
  | airdropStart =>
    exact ⟨p, h, rfl, rfl, rfl⟩
  | airdropEnd amount =>
    refine ⟨p, ?_, rfl, rfl, rfl⟩
    simp only [step, airdropSettle]
    split_ifs <;> simp [h]

/-- Claim C8, witness: the proposal opened in `govProposed` survives an
airdrop-start event unchanged (it is not settled, removed, or touched). -/
theorem c8_proposals_never_settled_witness :
    ∃ p', (step govProposed Event.airdropStart).active_proposals[0]? =
        some p' ∧
      p'.end_time = prop0.end_time ∧ p'.text = prop0.text ∧
      p'.creator = prop0.creator :=
  c8_proposals_never_settled govProposed Event.airdropStart 0 prop0 rfl

end Vortex
